import Mathlib

/-!
# StepCreateVM (builder/hyperv/common/step_create_vm.go)

A shallow embedding of the Hyper-V "create virtual machine" step: its `Run`
and `Cleanup` methods, the state bag they read and write, and the driver and
user interface they talk to.

Effects are made explicit.  A call of `Run` or `Cleanup` yields the ordered
list of events it produced (UI messages, log lines, state-bag writes, driver
calls with their results), the state bag afterwards, and how the call ended:
with a step action, or with a Go run-time panic raised by a failed type
assertion on a value fetched from the state bag.

Go strings are modelled by `String`; `uint` is a natural number reduced
modulo `2 ^ uintBits`; `int64` is an integer obtained by `toInt64`.
-/

namespace StepCreateVM

/-! ## Platform -/

/-- The properties of the Go platform the step is compiled for that its code
depends on: the width of `uint`, `os.IsPathSeparator`, and the lower-case
mapping `unicode.ToLower` applies to characters beyond ASCII. -/
structure Platform where
  uintBits : Nat
  isPathSeparator : Char → Bool
  lowerSpecial : Char → Char

/-- A 64-bit Windows host: `uint` has 64 bits, both slashes separate path
elements.  Characters beyond ASCII are left alone by this instance. -/
def windowsAmd64 : Platform :=
  { uintBits := 64
    isPathSeparator := fun c => c == '\\' || c == '/'
    lowerSpecial := fun c => c }

/-- Reduction of a natural number to the range of `uint`. -/
def wrapUint (P : Platform) (n : Nat) : Nat := n % 2 ^ P.uintBits

/-- The conversion `int64(x)` of an unsigned value of at most 64 bits: the
two's-complement reading of its low 64 bits. -/
def toInt64 (n : Nat) : Int :=
  if n % 2 ^ 64 < 2 ^ 63 then ((n % 2 ^ 64 : Nat) : Int)
  else ((n % 2 ^ 64 : Nat) : Int) - 2 ^ 64

/-! ## The library functions used by `Run` -/

/-- The loop of `filepath.Ext`, run over the path read backwards: `acc` holds
the characters already passed, in their original order. -/
def extLoop (isSep : Char → Bool) : List Char → List Char → List Char
  | [], _ => []
  | c :: rest, acc =>
    if isSep c then []
    else if c = '.' then c :: acc
    else extLoop isSep rest (c :: acc)

/-- Go `filepath.Ext`: the suffix beginning at the final dot in the final
element of the path, empty if there is no dot. -/
def filepath.Ext (P : Platform) (path : String) : String :=
  ⟨extLoop P.isPathSeparator path.data.reverse []⟩

/-- Go `unicode.ToLower` on one character. -/
def unicode.ToLower (P : Platform) (r : Char) : Char :=
  if r.val ≤ 127 then
    if 'A' ≤ r ∧ r ≤ 'Z' then Char.ofNat (r.toNat + 32) else r
  else P.lowerSpecial r

/-- Go `strings.ToLower`. -/
def strings.ToLower (P : Platform) (s : String) : String :=
  ⟨s.data.map (unicode.ToLower P)⟩

/-! ## Driver, user interface, state bag -/

/-- One call of a method of the `Driver` interface, with its arguments. -/
inductive DriverCall
  | CreateVirtualMachine (vmName path harddrivePath vhdPath : String)
      (ram diskSize : Int) (switchName : String) (generation : Nat)
  | SetVirtualMachineCpuCount (vmName : String) (cpu : Nat)
  | SetVirtualMachineDynamicMemory (vmName : String) (enable : Bool)
  | SetVirtualMachineMacSpoofing (vmName : String) (enable : Bool)
  | SetVirtualMachineSecureBoot (vmName : String) (enable : Bool)
  | SetVirtualMachineVirtualizationExtensions (vmName : String) (enable : Bool)
  | DeleteVirtualMachine (vmName : String)
  deriving DecidableEq, Repr

/-- A driver: given the calls it has received so far and a new call, it
answers `none` (a nil error) or `some e`, an error whose text is `e`. -/
abbrev Driver := List DriverCall → DriverCall → Option String

/-- A value stored in the state bag (`interface{}`). -/
inductive Value
  | string (s : String)
  | error (msg : String)
  | driver (d : Driver)
  | ui
  | other (tag : Nat)

/-- The state bag, `multistep.StateBag`: a mapping from keys to values. -/
abbrev StateBag := String → Option Value

/-- Go `state.Put(key, v)`. -/
def StateBag.Put (state : StateBag) (key : String) (v : Value) : StateBag :=
  fun k => if k = key then some v else state k

/-- Go `multistep.StepAction`. -/
inductive StepAction
  | ActionContinue
  | ActionHalt
  deriving DecidableEq, Repr

/-- An observable effect of the step. -/
inductive Event
  | say (msg : String)
  | uiError (msg : String)
  | log (msg : String)
  | put (key : String) (v : Value)
  | call (c : DriverCall) (r : Option String)

/-- The driver calls among a list of events, in order. -/
def driverCalls : List Event → List DriverCall
  | [] => []
  | .call c _ :: es => c :: driverCalls es
  | _ :: es => driverCalls es

/-- The driver calls among a list of events with their results, in order. -/
def driverResults : List Event → List (DriverCall × Option String)
  | [] => []
  | .call c r :: es => (c, r) :: driverResults es
  | _ :: es => driverResults es

/-- The messages sent to the error channel of the UI, in order. -/
def uiErrors : List Event → List String
  | [] => []
  | .uiError m :: es => m :: uiErrors es
  | _ :: es => uiErrors es

/-- The messages sent to the `Say` channel of the UI, in order. -/
def uiSays : List Event → List String
  | [] => []
  | .say m :: es => m :: uiSays es
  | _ :: es => uiSays es

/-- The keys written to the state bag, in order. -/
def putKeys : List Event → List String
  | [] => []
  | .put k _ :: es => k :: putKeys es
  | _ :: es => putKeys es

/-- A message shown on the UI, through `Say` or through `Error`. -/
inductive UiMessage
  | say (msg : String)
  | error (msg : String)
  deriving DecidableEq, Repr

/-- The messages shown on the UI, of both channels, in order. -/
def uiMessages : List Event → List UiMessage
  | [] => []
  | .say m :: es => .say m :: uiMessages es
  | .uiError m :: es => .error m :: uiMessages es
  | _ :: es => uiMessages es

/-- How a call of `Run` ended: with a step action, or with a panic. -/
inductive Outcome
  | returned (a : StepAction)
  | panicked
  deriving DecidableEq, Repr

/-- What a call of `Run` or `Cleanup` did. -/
structure Result where
  events : List Event
  state : StateBag
  outcome : Outcome

/-- What a call of `Cleanup` did; `Cleanup` has no result value, it returns
or panics. -/
structure CleanupResult where
  events : List Event
  state : StateBag
  panicked : Bool

/-! ## The step -/

/-- The fields of `StepCreateVM`. -/
structure Step where
  VMName : String
  SwitchName : String
  HarddrivePath : String
  RamSize : Nat
  DiskSize : Nat
  Generation : Nat
  Cpu : Nat
  EnableMacSpoofing : Bool
  EnableDynamicMemory : Bool
  EnableSecureBoot : Bool
  EnableVirtualizationExtensions : Bool

/-- The four lines every failure branch of `Run` shares: wrap the error text
(`fmt.Errorf`), store it under `error`, show it on the UI, halt.  The events
`evs` already include the failed driver call. -/
def haltWith (evs : List Event) (state : StateBag) (tag e : String) : Result :=
  let err := tag ++ e
  { events := evs ++ [.put "error" (.error err), .uiError err]
    state := state.Put "error" (.error err)
    outcome := .returned .ActionHalt }

/-- Lines 111-114 of `Run`: publish the name and continue. -/
def publish (s : Step) (evs : List Event) (state : StateBag) : Result :=
  { events := evs ++ [.put "vmName" (.string s.VMName)]
    state := state.Put "vmName" (.string s.VMName)
    outcome := .returned .ActionContinue }

/-- Lines 100-109 of `Run`. -/
def configVirtualizationExtensions (s : Step) (driver : Driver) (hist : List DriverCall)
    (evs : List Event) (state : StateBag) : Result :=
  if s.EnableVirtualizationExtensions then
    let c := DriverCall.SetVirtualMachineVirtualizationExtensions s.VMName
      s.EnableVirtualizationExtensions
    match driver (hist ++ driverCalls evs) c with
    | some e => haltWith (evs ++ [.call c (some e)]) state
        "Error setting virtual machine virtualization extensions: " e
    | none => publish s (evs ++ [.call c none]) state
  else publish s evs state

/-- Lines 90-98 of `Run`. -/
def configSecureBoot (s : Step) (driver : Driver) (hist : List DriverCall)
    (evs : List Event) (state : StateBag) : Result :=
  if s.Generation = 2 then
    let c := DriverCall.SetVirtualMachineSecureBoot s.VMName s.EnableSecureBoot
    match driver (hist ++ driverCalls evs) c with
    | some e => haltWith (evs ++ [.call c (some e)]) state "Error setting secure boot: " e
    | none => configVirtualizationExtensions s driver hist (evs ++ [.call c none]) state
  else configVirtualizationExtensions s driver hist evs state

/-- Lines 80-88 of `Run`. -/
def configMacSpoofing (s : Step) (driver : Driver) (hist : List DriverCall)
    (evs : List Event) (state : StateBag) : Result :=
  if s.EnableMacSpoofing then
    let c := DriverCall.SetVirtualMachineMacSpoofing s.VMName s.EnableMacSpoofing
    match driver (hist ++ driverCalls evs) c with
    | some e => haltWith (evs ++ [.call c (some e)]) state
        "Error setting virtual machine mac spoofing: " e
    | none => configSecureBoot s driver hist (evs ++ [.call c none]) state
  else configSecureBoot s driver hist evs state

/-- Lines 72-78 of `Run`. -/
def configDynamicMemory (s : Step) (driver : Driver) (hist : List DriverCall)
    (evs : List Event) (state : StateBag) : Result :=
  let c := DriverCall.SetVirtualMachineDynamicMemory s.VMName s.EnableDynamicMemory
  match driver (hist ++ driverCalls evs) c with
  | some e => haltWith (evs ++ [.call c (some e)]) state
      "Error setting virtual machine dynamic memory: " e
  | none => configMacSpoofing s driver hist (evs ++ [.call c none]) state

/-- Lines 64-70 of `Run`. -/
def configCpuCount (s : Step) (driver : Driver) (hist : List DriverCall)
    (evs : List Event) (state : StateBag) : Result :=
  let c := DriverCall.SetVirtualMachineCpuCount s.VMName s.Cpu
  match driver (hist ++ driverCalls evs) c with
  | some e => haltWith (evs ++ [.call c (some e)]) state
      "Error setting virtual machine cpu count: " e
  | none => configDynamicMemory s driver hist (evs ++ [.call c none]) state

/-- Line 53 of `Run`: `int64(s.RamSize * 1024 * 1024)`, the product taken in
`uint`. -/
def ramBytes (P : Platform) (s : Step) : Int :=
  toInt64 (wrapUint P (wrapUint P (s.RamSize * 1024) * 1024))

/-- Line 54 of `Run`: `int64(s.DiskSize * 1024 * 1024)`, the product taken in
`uint`. -/
def diskBytes (P : Platform) (s : Step) : Int :=
  toInt64 (wrapUint P (wrapUint P (s.DiskSize * 1024) * 1024))

/-- Lines 52-62 of `Run`. -/
def createVM (P : Platform) (s : Step) (driver : Driver) (hist : List DriverCall)
    (path harddrivePath vhdPath : String) (evs : List Event) (state : StateBag) : Result :=
  let ramSize := ramBytes P s
  let diskSize := diskBytes P s
  let c := DriverCall.CreateVirtualMachine s.VMName path harddrivePath vhdPath ramSize diskSize
    s.SwitchName s.Generation
  match driver (hist ++ driverCalls evs) c with
  | some e => haltWith (evs ++ [.call c (some e)]) state "Error creating virtual machine: " e
  | none => configCpuCount s driver hist (evs ++ [.call c none]) state

/-- Lines 38-49 of `Run`: the hard drive path to attach, or `none` when the
value under `iso_path` is not a string and the type assertion panics. -/
def resolveHarddrivePath (P : Platform) (state : StateBag) : Option String :=
  match state "iso_path" with
  | some (.string harddrivePathRaw) =>
    let extension := strings.ToLower P (filepath.Ext P harddrivePathRaw)
    if extension = ".vhd" ∨ extension = ".vhdx" then some harddrivePathRaw
    else some ""
  | some _ => none
  | none => some ""

/-- The log line written on lines 45 and 48 of `Run`, when no hard drive is
attached. -/
def resolveLog (P : Platform) (state : StateBag) : List Event :=
  match state "iso_path" with
  | some (.string harddrivePathRaw) =>
    let extension := strings.ToLower P (filepath.Ext P harddrivePathRaw)
    if extension = ".vhd" ∨ extension = ".vhdx" then []
    else [.log "No existing virtual harddrive, not attaching."]
  | some _ => []
  | none => [.log "No existing virtual harddrive, not attaching."]

/-- The method `Run`.  `hist` lists the calls the driver has received before. -/
def Run (P : Platform) (s : Step) (hist : List DriverCall) (state : StateBag) : Result :=
  match state "driver" with
  | some (.driver driver) =>
    match state "ui" with
    | some .ui =>
      let evs := [Event.say "Creating virtual machine..."]
      match state "packerTempDir" with
      | some (.string path) =>
        match resolveHarddrivePath P state with
        | some harddrivePath =>
          let evs := evs ++ resolveLog P state
          match state "packerVhdTempDir" with
          | some (.string vhdPath) =>
            createVM P s driver hist path harddrivePath vhdPath evs state
          | _ => { events := evs, state := state, outcome := .panicked }
        | none => { events := evs, state := state, outcome := .panicked }
      | _ => { events := evs, state := state, outcome := .panicked }
    | _ => { events := [], state := state, outcome := .panicked }
  | _ => { events := [], state := state, outcome := .panicked }

/-- The method `Cleanup`. -/
def Cleanup (s : Step) (hist : List DriverCall) (state : StateBag) : CleanupResult :=
  if s.VMName = "" then { events := [], state := state, panicked := false }
  else
    match state "driver" with
    | some (.driver driver) =>
      match state "ui" with
      | some .ui =>
        let evs := [Event.say "Unregistering and deleting virtual machine..."]
        let c := DriverCall.DeleteVirtualMachine s.VMName
        match driver (hist ++ driverCalls evs) c with
        | some e =>
          { events := evs ++ [.call c (some e),
              .uiError ("Error deleting virtual machine: " ++ e)]
            state := state, panicked := false }
        | none => { events := evs ++ [.call c none], state := state, panicked := false }
      | _ => { events := [], state := state, panicked := true }
    | _ => { events := [], state := state, panicked := true }

/-- The receiver `*s` after a call of `Run`.  `Run` has a pointer receiver but
its body assigns to no field of `s`, so the step it leaves behind is the step
it was called on. -/
def receiverAfterRun (_P : Platform) (s : Step) (_hist : List DriverCall)
    (_state : StateBag) : Step := s

/-! ## Vocabulary of the specification -/

/-- The state bag holds what `Run` consumes (section 3 of the specification):
a driver under `driver`, a UI under `ui`, strings under `packerTempDir` and
`packerVhdTempDir`, and under `iso_path` nothing or a string. -/
def RequiredKeys (state : StateBag) (driver : Driver) (path vhdPath : String) : Prop :=
  state "driver" = some (.driver driver) ∧ state "ui" = some .ui ∧
  state "packerTempDir" = some (.string path) ∧
  state "packerVhdTempDir" = some (.string vhdPath) ∧
  (state "iso_path" = none ∨ ∃ p, state "iso_path" = some (.string p))

/-- The full gated sequence of primitives as section 4.1 of the specification
lists it, for a working directory, a resolved hard drive path and a disk
directory. -/
def claimedSequence (P : Platform) (s : Step) (path harddrivePath vhdPath : String) :
    List DriverCall :=
  [.CreateVirtualMachine s.VMName path harddrivePath vhdPath (ramBytes P s) (diskBytes P s)
      s.SwitchName s.Generation,
    .SetVirtualMachineCpuCount s.VMName s.Cpu,
    .SetVirtualMachineDynamicMemory s.VMName s.EnableDynamicMemory]
  ++ (if s.EnableMacSpoofing then [.SetVirtualMachineMacSpoofing s.VMName true] else [])
  ++ (if s.Generation = 2 then [.SetVirtualMachineSecureBoot s.VMName s.EnableSecureBoot]
      else [])
  ++ (if s.EnableVirtualizationExtensions then
        [.SetVirtualMachineVirtualizationExtensions s.VMName true] else [])

/-- The position of a primitive in the sequence of section 4.1 of the
specification; `DeleteVirtualMachine`, which `Run` never calls, comes last. -/
def stage : DriverCall → Nat
  | .CreateVirtualMachine .. => 1
  | .SetVirtualMachineCpuCount .. => 2
  | .SetVirtualMachineDynamicMemory .. => 3
  | .SetVirtualMachineMacSpoofing .. => 4
  | .SetVirtualMachineSecureBoot .. => 5
  | .SetVirtualMachineVirtualizationExtensions .. => 6
  | .DeleteVirtualMachine .. => 7

/-- The name of the virtual machine a driver call is addressed to. -/
def DriverCall.target : DriverCall → String
  | .CreateVirtualMachine n .. => n
  | .SetVirtualMachineCpuCount n _ => n
  | .SetVirtualMachineDynamicMemory n _ => n
  | .SetVirtualMachineMacSpoofing n _ => n
  | .SetVirtualMachineSecureBoot n _ => n
  | .SetVirtualMachineVirtualizationExtensions n _ => n
  | .DeleteVirtualMachine n => n

/-- A run got as far as position `k` of the sequence: it did not panic while
loading its parameters and no primitive before position `k` returned an
error. -/
def reached (k : Nat) (r : Result) : Prop :=
  r.outcome ≠ .panicked ∧ ∀ c e, (c, some e) ∈ driverResults r.events → k ≤ stage c

/-- The fixed text the specification says an error of each primitive is
wrapped with. -/
def claimedErrorTag : DriverCall → String
  | .CreateVirtualMachine .. => "Error creating virtual machine: "
  | .SetVirtualMachineCpuCount .. => "Error setting virtual machine cpu count: "
  | .SetVirtualMachineDynamicMemory .. => "Error setting virtual machine dynamic memory: "
  | .SetVirtualMachineMacSpoofing .. => "Error setting virtual machine mac spoofing: "
  | .SetVirtualMachineSecureBoot .. => "Error setting secure boot: "
  | .SetVirtualMachineVirtualizationExtensions .. =>
    "Error setting virtual machine virtualization extensions: "
  | .DeleteVirtualMachine .. => "Error deleting virtual machine: "

/-! ## Scenarios -/

/-- A driver all of whose operations succeed. -/
def okDriver : Driver := fun _ _ => none

/-- A driver that cannot create a virtual machine. -/
def createFailsDriver : Driver := fun _ c =>
  match c with
  | .CreateVirtualMachine .. => some "switch not found"
  | _ => none

/-- The driver of scenario S4: setting the CPU count fails with "host busy". -/
def cpuBusyDriver : Driver := fun _ c =>
  match c with
  | .SetVirtualMachineCpuCount .. => some "host busy"
  | _ => none

/-- The driver of scenario S6: deleting the virtual machine fails. -/
def deleteFailsDriver : Driver := fun _ c =>
  match c with
  | .DeleteVirtualMachine .. => some "access denied"
  | _ => none

/-- A state bag with the required keys, the given driver and the given value
(if any) under `iso_path`. -/
def bagWith (driver : Driver) (iso : Option Value) : StateBag := fun k =>
  if k = "driver" then some (.driver driver)
  else if k = "ui" then some .ui
  else if k = "packerTempDir" then some (.string "C:/packer/tmp")
  else if k = "packerVhdTempDir" then some (.string "C:/packer/vhd")
  else if k = "iso_path" then iso
  else none

/-- The step of scenario S1. -/
def stepS1 : Step :=
  { VMName := "build-01", SwitchName := "external", HarddrivePath := ""
    RamSize := 2048, DiskSize := 40960, Generation := 2, Cpu := 2
    EnableMacSpoofing := false, EnableDynamicMemory := false
    EnableSecureBoot := true, EnableVirtualizationExtensions := false }

/-- The state bag of scenario S1: an ISO installation. -/
def bagS1 : StateBag := bagWith okDriver (some (.string "/tmp/os.iso"))

/-- The state bag of scenario S2: a pre-built VHDX. -/
def bagS2 : StateBag := bagWith okDriver (some (.string "/images/base.VHDX"))

def stepNested : Step :=
  { VMName := "build-02", SwitchName := "", HarddrivePath := ""
    RamSize := 4096, DiskSize := 20480, Generation := 1, Cpu := 4
    EnableMacSpoofing := true, EnableDynamicMemory := true
    EnableSecureBoot := true, EnableVirtualizationExtensions := true }

def stepHuge : Step :=
  { VMName := "build-03", SwitchName := "external", HarddrivePath := ""
    RamSize := 17592186044416, DiskSize := 40960, Generation := 2, Cpu := 2
    EnableMacSpoofing := false, EnableDynamicMemory := false
    EnableSecureBoot := false, EnableVirtualizationExtensions := false }

def windows386 : Platform :=
  { uintBits := 32
    isPathSeparator := fun c => c == '\\' || c == '/'
    lowerSpecial := fun c => c }

/-! ## Structure of `Run` -/

@[simp] theorem driverCalls_append (a b : List Event) :
    driverCalls (a ++ b) = driverCalls a ++ driverCalls b := by
  induction a with
  | nil => rfl
  | cons e es ih => cases e <;> simp [driverCalls, ih]

@[simp] theorem driverResults_append (a b : List Event) :
    driverResults (a ++ b) = driverResults a ++ driverResults b := by
  induction a with
  | nil => rfl
  | cons e es ih => cases e <;> simp [driverResults, ih]

@[simp] theorem uiErrors_append (a b : List Event) :
    uiErrors (a ++ b) = uiErrors a ++ uiErrors b := by
  induction a with
  | nil => rfl
  | cons e es ih => cases e <;> simp [uiErrors, ih]

@[simp] theorem uiSays_append (a b : List Event) :
    uiSays (a ++ b) = uiSays a ++ uiSays b := by
  induction a with
  | nil => rfl
  | cons e es ih => cases e <;> simp [uiSays, ih]

@[simp] theorem putKeys_append (a b : List Event) :
    putKeys (a ++ b) = putKeys a ++ putKeys b := by
  induction a with
  | nil => rfl
  | cons e es ih => cases e <;> simp [putKeys, ih]

@[simp] theorem uiMessages_append (a b : List Event) :
    uiMessages (a ++ b) = uiMessages a ++ uiMessages b := by
  induction a with
  | nil => rfl
  | cons e es ih => cases e <;> simp [uiMessages, ih]

/-- The parameter-loading part of `Run` only logs. -/
theorem resolveLog_quiet (P : Platform) (state : StateBag) :
    driverCalls (resolveLog P state) = [] ∧ driverResults (resolveLog P state) = [] ∧
    uiErrors (resolveLog P state) = [] ∧ uiSays (resolveLog P state) = [] ∧
    putKeys (resolveLog P state) = [] := by
  unfold resolveLog
  split
  · dsimp only
    split <;> simp [driverCalls, driverResults, uiErrors, uiSays, putKeys]
  · simp [driverCalls, driverResults, uiErrors, uiSays, putKeys]
  · simp [driverCalls, driverResults, uiErrors, uiSays, putKeys]

@[simp] theorem driverCalls_resolveLog (P : Platform) (state : StateBag) :
    driverCalls (resolveLog P state) = [] := (resolveLog_quiet P state).1

@[simp] theorem driverResults_resolveLog (P : Platform) (state : StateBag) :
    driverResults (resolveLog P state) = [] := (resolveLog_quiet P state).2.1

@[simp] theorem uiErrors_resolveLog (P : Platform) (state : StateBag) :
    uiErrors (resolveLog P state) = [] := (resolveLog_quiet P state).2.2.1

@[simp] theorem uiSays_resolveLog (P : Platform) (state : StateBag) :
    uiSays (resolveLog P state) = [] := (resolveLog_quiet P state).2.2.2.1

@[simp] theorem putKeys_resolveLog (P : Platform) (state : StateBag) :
    putKeys (resolveLog P state) = [] := (resolveLog_quiet P state).2.2.2.2

@[simp] theorem uiMessages_resolveLog (P : Platform) (state : StateBag) :
    uiMessages (resolveLog P state) = [] := by
  unfold resolveLog
  split
  · dsimp only
    split <;> simp [uiMessages]
  · simp [uiMessages]
  · simp [uiMessages]

/-- With the required keys in the state bag the hard drive path resolves. -/
theorem resolve_of_required {P : Platform} {state : StateBag} {driver : Driver}
    {path vhd : String} (h : RequiredKeys state driver path vhd) :
    resolveHarddrivePath P state = some ((resolveHarddrivePath P state).getD "") := by
  obtain ⟨_, _, _, _, hiso | ⟨p, hiso⟩⟩ := h
  · simp [resolveHarddrivePath, hiso]
  · simp only [resolveHarddrivePath, hiso]
    split <;> rfl

/-- With the required keys in the state bag, `Run` loads its parameters and
goes on to create the virtual machine. -/
theorem Run_of_required {P : Platform} {state : StateBag} {driver : Driver}
    {path vhd : String} (h : RequiredKeys state driver path vhd) (s : Step)
    (hist : List DriverCall) :
    Run P s hist state = createVM P s driver hist path
      ((resolveHarddrivePath P state).getD "") vhd
      ([Event.say "Creating virtual machine..."] ++ resolveLog P state) state := by
  have hr := resolve_of_required (P := P) h
  obtain ⟨h1, h2, h3, h4, _⟩ := h
  unfold Run
  simp only [h1, h2, h3, h4]
  rw [hr]
  rfl

/-- Either the state bag holds the required keys, or `Run` panics while
loading its parameters, before any driver call, error message or write to the
state bag. -/
theorem Run_shape (P : Platform) (s : Step) (hist : List DriverCall) (state : StateBag) :
    (∃ driver path vhd, RequiredKeys state driver path vhd) ∨
    ((Run P s hist state).outcome = .panicked ∧ (Run P s hist state).state = state ∧
      driverCalls (Run P s hist state).events = [] ∧
      driverResults (Run P s hist state).events = [] ∧
      uiErrors (Run P s hist state).events = [] ∧
      putKeys (Run P s hist state).events = []) := by
  unfold Run
  split
  · split
    · split
      · split
        · split
          · left
            rename_i hd _ hu _ _ hp _ hpath hr _ _ hv
            refine ⟨_, _, _, hd, hu, hp, hv, ?_⟩
            unfold resolveHarddrivePath at hr
            split at hr
            · exact Or.inr ⟨_, by assumption⟩
            · cases hr
            · exact Or.inl (by assumption)
          · right; simp [driverCalls, driverResults, uiErrors, putKeys]
        · right; simp [driverCalls, driverResults, uiErrors, putKeys]
      · right; simp [driverCalls, driverResults, uiErrors, putKeys]
    · right; simp [driverCalls, driverResults, uiErrors, putKeys]
  · right; simp [driverCalls, driverResults, uiErrors, putKeys]

/-- Every `CreateVirtualMachine` call of `Run` carries the step's name, the two
directories of the state bag, the resolved hard drive path and the converted
sizes. -/
theorem create_call_args (P : Platform) (s : Step) (hist : List DriverCall)
    (state : StateBag) (c : DriverCall) (hc : c ∈ driverCalls (Run P s hist state).events)
    (hs : stage c = 1) :
    ∃ path vhd, state "packerTempDir" = some (.string path) ∧
      state "packerVhdTempDir" = some (.string vhd) ∧
      c = .CreateVirtualMachine s.VMName path ((resolveHarddrivePath P state).getD "") vhd
        (ramBytes P s) (diskBytes P s) s.SwitchName s.Generation := by
  rcases Run_shape P s hist state with ⟨driver, path, vhd, hr⟩ | ⟨_, _, hp, _⟩
  · refine ⟨path, vhd, hr.2.2.1, hr.2.2.2.1, ?_⟩
    rw [Run_of_required hr] at hc
    revert hc
    unfold createVM configCpuCount configDynamicMemory configMacSpoofing configSecureBoot
      configVirtualizationExtensions haltWith publish
    dsimp only
    (repeat' split) <;> simp [driverCalls] <;> rintro h <;>
      simp_all [stage] <;> (rcases h with h | h | h | h | h | h <;> simp_all [stage])
  · rw [hp] at hc; cases hc

/-- With the required keys in the state bag, the first driver call of `Run` is
`CreateVirtualMachine`. -/
theorem first_call_of_required {P : Platform} {state : StateBag} {driver : Driver}
    {path vhd : String} (h : RequiredKeys state driver path vhd) (s : Step)
    (hist : List DriverCall) :
    (driverCalls (Run P s hist state).events).head? =
      some (.CreateVirtualMachine s.VMName path ((resolveHarddrivePath P state).getD "") vhd
        (ramBytes P s) (diskBytes P s) s.SwitchName s.Generation) := by
  rw [Run_of_required h]
  unfold createVM configCpuCount configDynamicMemory configMacSpoofing configSecureBoot
    configVirtualizationExtensions haltWith publish
  dsimp only
  (repeat' split) <;> simp [driverCalls]

/-- The conversion of megabytes to bytes is exact while the product fits both
`uint` and the non-negative range of `int64`. -/
theorem mb_to_bytes_exact (P : Platform) (n : Nat) (hw : n * 1048576 < 2 ^ P.uintBits)
    (hi : n * 1048576 < 2 ^ 63) :
    toInt64 (wrapUint P (wrapUint P (n * 1024) * 1024)) = (n : Int) * 1048576 := by
  have h1 : n * 1024 < 2 ^ P.uintBits := by omega
  have h2 : wrapUint P (n * 1024) = n * 1024 := Nat.mod_eq_of_lt h1
  have h3 : n * 1024 * 1024 = n * 1048576 := by ring
  have h4 : wrapUint P (n * 1048576) = n * 1048576 := Nat.mod_eq_of_lt hw
  have h5 : n * 1048576 % 2 ^ 64 = n * 1048576 := Nat.mod_eq_of_lt (by omega)
  rw [h2, h3, h4]
  unfold toInt64
  rw [h5, if_pos hi]
  push_cast
  rfl

/-- `Run` writes to the state bag under `error` and `vmName` only. -/
theorem Run_frame (P : Platform) (s : Step) (hist : List DriverCall) (state : StateBag)
    (k : String) (he : k ≠ "error") (hv : k ≠ "vmName") :
    (Run P s hist state).state k = state k := by
  rcases Run_shape P s hist state with ⟨driver, path, vhd, hr⟩ | ⟨_, hs, _⟩
  · rw [Run_of_required hr]
    unfold createVM configCpuCount configDynamicMemory configMacSpoofing configSecureBoot
      configVirtualizationExtensions haltWith publish
    dsimp only
    (repeat' split) <;> simp [StateBag.Put, he, hv]
  · rw [hs]

/-- With the required keys in the state bag `Run` does not panic. -/
theorem Run_returns_of_required {P : Platform} {state : StateBag} {driver : Driver}
    {path vhd : String} (hr : RequiredKeys state driver path vhd) (s : Step)
    (hist : List DriverCall) : (Run P s hist state).outcome ≠ .panicked := by
  rw [Run_of_required hr]
  unfold createVM configCpuCount configDynamicMemory configMacSpoofing configSecureBoot
    configVirtualizationExtensions haltWith publish
  dsimp only
  (repeat' split) <;> simp

/-- A run of `Run` that panics has made no driver call and has shown on the UI
nothing or its announcement only. -/
theorem Run_panic_quiet (P : Platform) (s : Step) (hist : List DriverCall)
    (state : StateBag) (h : (Run P s hist state).outcome = .panicked) :
    driverCalls (Run P s hist state).events = [] ∧
    (uiMessages (Run P s hist state).events = [] ∨
      uiMessages (Run P s hist state).events = [.say "Creating virtual machine..."]) := by
  revert h
  unfold Run
  split
  · split
    · split
      · split
        · split
          · unfold createVM configCpuCount configDynamicMemory configMacSpoofing
              configSecureBoot configVirtualizationExtensions haltWith publish
            dsimp only
            (repeat' split) <;> simp
          · simp [uiMessages, driverCalls]
        · simp [uiMessages, driverCalls]
      · simp [uiMessages, driverCalls]
    · simp [uiMessages, driverCalls]
  · simp [uiMessages, driverCalls]

/-- With a driver and a UI in the state bag and a name to delete, `Cleanup`
announces itself and calls `DeleteVirtualMachine` once. -/
theorem Cleanup_of_named (s : Step) (hist : List DriverCall) (state : StateBag)
    (driver : Driver) (hd : state "driver" = some (.driver driver))
    (hu : state "ui" = some .ui) (hn : s.VMName ≠ "") :
    driverCalls (Cleanup s hist state).events = [.DeleteVirtualMachine s.VMName] ∧
    uiSays (Cleanup s hist state).events =
      ["Unregistering and deleting virtual machine..."] := by
  unfold Cleanup
  simp only [hd, hu, if_neg hn]
  split <;> simp [driverCalls, uiSays]

/-- With the required keys in the state bag, the driver calls of `Run` are the
first calls of the full gated sequence, as many of them as were made, and there
is at least one. -/
theorem calls_eq_take {P : Platform} {state : StateBag} {driver : Driver}
    {path vhd : String} (hr : RequiredKeys state driver path vhd) (s : Step)
    (hist : List DriverCall) :
    driverCalls (Run P s hist state).events =
      (claimedSequence P s path ((resolveHarddrivePath P state).getD "") vhd).take
        (driverCalls (Run P s hist state).events).length ∧
    driverCalls (Run P s hist state).events ≠ [] := by
  rw [Run_of_required hr]
  unfold createVM configCpuCount configDynamicMemory configMacSpoofing configSecureBoot
    configVirtualizationExtensions haltWith publish claimedSequence
  dsimp only
  (repeat' split) <;> simp_all [driverCalls]

/-! ## The claims -/

/-- C1: whenever `Run` returns Continue, the state bag holds the working
directory and the disk directory, and the driver calls `Run` made are exactly
the gated sequence of section 4.1: CreateVirtualMachine with the step's name,
the two directories, the resolved hard drive path, the converted sizes, the
switch name and the generation; SetVirtualMachineCpuCount;
SetVirtualMachineDynamicMemory; SetVirtualMachineMacSpoofing(name, true) iff
EnableMacSpoofing; SetVirtualMachineSecureBoot(name, EnableSecureBoot) iff
Generation = 2; SetVirtualMachineVirtualizationExtensions(name, true) iff
EnableVirtualizationExtensions; in this order, and no other call. -/
theorem C1_continue_call_sequence (P : Platform) (s : Step) (hist : List DriverCall)
    (state : StateBag)
    (h : (Run P s hist state).outcome = .returned .ActionContinue) :
    ∃ path vhd, state "packerTempDir" = some (.string path) ∧
      state "packerVhdTempDir" = some (.string vhd) ∧
      driverCalls (Run P s hist state).events =
        claimedSequence P s path ((resolveHarddrivePath P state).getD "") vhd := by
  rcases Run_shape P s hist state with ⟨driver, path, vhd, hr⟩ | ⟨hp, _⟩
  · refine ⟨path, vhd, hr.2.2.1, hr.2.2.2.1, ?_⟩
    rw [Run_of_required hr] at h ⊢
    revert h
    unfold createVM configCpuCount configDynamicMemory configMacSpoofing configSecureBoot
      configVirtualizationExtensions haltWith publish claimedSequence
    dsimp only
    (repeat' split) <;> simp_all [driverCalls]
  · rw [hp] at h; cases h

/-- Scenario S1 returns Continue, so its driver calls are the gated sequence. -/
theorem C1_witness :
    (Run windowsAmd64 stepS1 [] bagS1).outcome = .returned .ActionContinue ∧
    ∃ path vhd, bagS1 "packerTempDir" = some (.string path) ∧
      bagS1 "packerVhdTempDir" = some (.string vhd) ∧
      driverCalls (Run windowsAmd64 stepS1 [] bagS1).events =
        claimedSequence windowsAmd64 stepS1 path
          ((resolveHarddrivePath windowsAmd64 bagS1).getD "") vhd :=
  ⟨by decide, C1_continue_call_sequence windowsAmd64 stepS1 [] bagS1 (by decide)⟩

/-- Scenario S1 of the specification: the driver trace of the happy path. -/
theorem scenario_S1_trace :
    driverCalls (Run windowsAmd64 stepS1 [] bagS1).events =
      [.CreateVirtualMachine "build-01" "C:/packer/tmp" "" "C:/packer/vhd" 2147483648
          42949672960 "external" 2,
        .SetVirtualMachineCpuCount "build-01" 2,
        .SetVirtualMachineDynamicMemory "build-01" false,
        .SetVirtualMachineSecureBoot "build-01" true] := by decide

/-- C2: when a driver primitive invoked by `Run` returns an error, that call is
the last driver call of the run and every call before it succeeded, the key
`error` is written to the state bag exactly once, and `Run` returns Halt. -/
theorem C2_failure_short_circuits (P : Platform) (s : Step) (hist : List DriverCall)
    (state : StateBag) (c : DriverCall) (e : String)
    (h : (c, some e) ∈ driverResults (Run P s hist state).events) :
    (driverResults (Run P s hist state).events =
        (driverResults (Run P s hist state).events).dropLast ++ [(c, some e)] ∧
      ∀ x ∈ (driverResults (Run P s hist state).events).dropLast, x.2 = none) ∧
    (putKeys (Run P s hist state).events).count "error" = 1 ∧
    (Run P s hist state).outcome = .returned .ActionHalt := by
  rcases Run_shape P s hist state with ⟨driver, path, vhd, hr⟩ | ⟨_, _, _, hp, _⟩
  · rw [Run_of_required hr] at h ⊢
    revert h
    unfold createVM configCpuCount configDynamicMemory configMacSpoofing configSecureBoot
      configVirtualizationExtensions haltWith publish
    dsimp only
    (repeat' split) <;> simp_all [driverResults, putKeys]
  · rw [hp] at h; cases h

/-- Scenario S4: the CPU count cannot be set; the run stops there and halts. -/
theorem C2_witness :
    (DriverCall.SetVirtualMachineCpuCount "build-01" 2, some "host busy") ∈
      driverResults (Run windowsAmd64 stepS1 [] (bagWith cpuBusyDriver none)).events ∧
    ((driverResults (Run windowsAmd64 stepS1 [] (bagWith cpuBusyDriver none)).events =
        (driverResults (Run windowsAmd64 stepS1 [] (bagWith cpuBusyDriver none)).events).dropLast
          ++ [(DriverCall.SetVirtualMachineCpuCount "build-01" 2, some "host busy")] ∧
      ∀ x ∈ (driverResults
          (Run windowsAmd64 stepS1 [] (bagWith cpuBusyDriver none)).events).dropLast,
        x.2 = none) ∧
    (putKeys (Run windowsAmd64 stepS1 [] (bagWith cpuBusyDriver none)).events).count "error" = 1 ∧
    (Run windowsAmd64 stepS1 [] (bagWith cpuBusyDriver none)).outcome = .returned .ActionHalt) :=
  ⟨by decide, C2_failure_short_circuits windowsAmd64 stepS1 [] (bagWith cpuBusyDriver none) _ _
    (by decide)⟩

/-- Generation is 2 and yet `SetVirtualMachineSecureBoot` is not invoked: the
driver fails to create the virtual machine and `Run` stops there. -/
theorem C3_counterexample :
    stepS1.Generation = 2 ∧
    ¬ ∃ n b, DriverCall.SetVirtualMachineSecureBoot n b ∈
      driverCalls (Run windowsAmd64 stepS1 [] (bagWith createFailsDriver none)).events := by
  refine ⟨rfl, ?_⟩
  rintro ⟨n, b, h⟩
  have hc : driverCalls (Run windowsAmd64 stepS1 [] (bagWith createFailsDriver none)).events =
      [.CreateVirtualMachine "build-01" "C:/packer/tmp" "" "C:/packer/vhd" 2147483648
        42949672960 "external" 2] := by decide
  rw [hc] at h
  simp at h

/-- C3, amended: `SetVirtualMachineSecureBoot` is invoked by `Run` exactly when
Generation = 2 and the run gets as far as that primitive (it does not panic
while loading its parameters and none of CreateVirtualMachine,
SetVirtualMachineCpuCount, SetVirtualMachineDynamicMemory,
SetVirtualMachineMacSpoofing returned an error); it is then invoked with the
step's name and EnableSecureBoot. -/
theorem C3_secure_boot_gate (P : Platform) (s : Step) (hist : List DriverCall)
    (state : StateBag) (n : String) (b : Bool) :
    DriverCall.SetVirtualMachineSecureBoot n b ∈ driverCalls (Run P s hist state).events ↔
      s.Generation = 2 ∧ n = s.VMName ∧ b = s.EnableSecureBoot ∧
        reached 5 (Run P s hist state) := by
  rcases Run_shape P s hist state with ⟨driver, path, vhd, hr⟩ | ⟨ho, _, hc, hp, _⟩
  · rw [Run_of_required hr]
    unfold reached createVM configCpuCount configDynamicMemory configMacSpoofing configSecureBoot
      configVirtualizationExtensions haltWith publish
    dsimp only
    (repeat' split) <;> simp_all [driverResults, driverCalls, stage]
  · simp [hc, reached, ho]

/-- The driver fails to create the virtual machine: `Run` stops there, so
`SetVirtualMachineDynamicMemory` is not invoked, and neither is
`SetVirtualMachineMacSpoofing` although EnableMacSpoofing is true. -/
theorem C4_counterexample :
    (¬ ∃ n b, DriverCall.SetVirtualMachineDynamicMemory n b ∈
      driverCalls (Run windowsAmd64 stepNested [] (bagWith createFailsDriver none)).events) ∧
    stepNested.EnableMacSpoofing = true ∧
    (¬ ∃ n b, DriverCall.SetVirtualMachineMacSpoofing n b ∈
      driverCalls (Run windowsAmd64 stepNested [] (bagWith createFailsDriver none)).events) := by
  have hc : driverCalls (Run windowsAmd64 stepNested [] (bagWith createFailsDriver none)).events =
      [.CreateVirtualMachine "build-02" "C:/packer/tmp" "" "C:/packer/vhd" 4294967296
        21474836480 "" 1] := by decide
  rw [hc]
  simp [stepNested]

/-- C4, amended: `SetVirtualMachineMacSpoofing` is invoked exactly when
EnableMacSpoofing is true and the run gets as far as that primitive;
`SetVirtualMachineVirtualizationExtensions` exactly when
EnableVirtualizationExtensions is true and the run gets as far as that
primitive; `SetVirtualMachineDynamicMemory` exactly when the run gets as far
as that primitive, with no flag gating it and EnableDynamicMemory passed
through.  A run gets as far as a primitive when it does not panic while
loading its parameters and no earlier primitive returned an error. -/
theorem C4_feature_gates (P : Platform) (s : Step) (hist : List DriverCall)
    (state : StateBag) (n : String) (b : Bool) :
    (DriverCall.SetVirtualMachineMacSpoofing n b ∈ driverCalls (Run P s hist state).events ↔
      s.EnableMacSpoofing = true ∧ n = s.VMName ∧ b = true ∧
        reached 4 (Run P s hist state)) ∧
    (DriverCall.SetVirtualMachineVirtualizationExtensions n b ∈
        driverCalls (Run P s hist state).events ↔
      s.EnableVirtualizationExtensions = true ∧ n = s.VMName ∧ b = true ∧
        reached 6 (Run P s hist state)) ∧
    (DriverCall.SetVirtualMachineDynamicMemory n b ∈ driverCalls (Run P s hist state).events ↔
      n = s.VMName ∧ b = s.EnableDynamicMemory ∧ reached 3 (Run P s hist state)) := by
  rcases Run_shape P s hist state with ⟨driver, path, vhd, hr⟩ | ⟨ho, _, hc, hp, _⟩
  · rw [Run_of_required hr]
    unfold reached createVM configCpuCount configDynamicMemory configMacSpoofing configSecureBoot
      configVirtualizationExtensions haltWith publish
    dsimp only
    (repeat' split) <;> simp_all [driverResults, driverCalls, stage]
  · simp [hc, reached, ho]

/-- C5: the hard drive path of every `CreateVirtualMachine` call of `Run` is the
string stored under `iso_path`, unchanged, when its lower-cased extension is
".vhd" or ".vhdx", the empty string when the extension is anything else, and
the empty string when `iso_path` is absent; and with the required keys in the
state bag `Run` does make that call, as its first driver call. -/
theorem C5_harddrive_path_resolution (P : Platform) (s : Step) (hist : List DriverCall)
    (state : StateBag) :
    (∀ n path hp vhd ram disk sw g,
      DriverCall.CreateVirtualMachine n path hp vhd ram disk sw g ∈
          driverCalls (Run P s hist state).events →
        (∀ p, state "iso_path" = some (.string p) →
          hp = if strings.ToLower P (filepath.Ext P p) = ".vhd" ∨
              strings.ToLower P (filepath.Ext P p) = ".vhdx" then p else "") ∧
        (state "iso_path" = none → hp = "")) ∧
    (∀ driver path vhd, RequiredKeys state driver path vhd →
      ∃ hp, (driverCalls (Run P s hist state).events).head? =
        some (.CreateVirtualMachine s.VMName path hp vhd (ramBytes P s) (diskBytes P s)
          s.SwitchName s.Generation)) := by
  constructor
  · intro n path hp vhd ram disk sw g hc
    obtain ⟨path', vhd', _, _, heq⟩ := create_call_args P s hist state _ hc rfl
    injection heq with _ _ hhp
    subst hhp
    constructor
    · intro p hiso
      simp only [resolveHarddrivePath, hiso]
      split <;> rfl
    · intro hiso
      simp [resolveHarddrivePath, hiso]
  · intro driver path vhd hr
    exact ⟨_, first_call_of_required hr s hist⟩

/-- Scenarios S2 and S1: "/images/base.VHDX" is forwarded in its original
letter case, "/tmp/os.iso" is replaced by the empty string. -/
theorem C5_witness :
    (∃ hp, (driverCalls (Run windowsAmd64 stepS1 [] bagS2).events).head? =
        some (.CreateVirtualMachine "build-01" "C:/packer/tmp" hp "C:/packer/vhd"
          (ramBytes windowsAmd64 stepS1) (diskBytes windowsAmd64 stepS1) "external" 2)) ∧
    (∀ n path hp vhd ram disk sw g,
      DriverCall.CreateVirtualMachine n path hp vhd ram disk sw g ∈
          driverCalls (Run windowsAmd64 stepS1 [] bagS2).events →
        hp = "/images/base.VHDX") ∧
    (∀ n path hp vhd ram disk sw g,
      DriverCall.CreateVirtualMachine n path hp vhd ram disk sw g ∈
          driverCalls (Run windowsAmd64 stepS1 [] bagS1).events →
        hp = "") :=
  ⟨(C5_harddrive_path_resolution windowsAmd64 stepS1 [] bagS2).2 okDriver _ _
      ⟨rfl, rfl, rfl, rfl, Or.inr ⟨_, rfl⟩⟩,
    fun n path hp vhd ram disk sw g h =>
      (((C5_harddrive_path_resolution windowsAmd64 stepS1 [] bagS2).1
        n path hp vhd ram disk sw g h).1 "/images/base.VHDX" rfl).trans (by decide),
    fun n path hp vhd ram disk sw g h =>
      (((C5_harddrive_path_resolution windowsAmd64 stepS1 [] bagS1).1
        n path hp vhd ram disk sw g h).1 "/tmp/os.iso" rfl).trans (by decide)⟩

/-- C6: the sizes `Run` passes to `CreateVirtualMachine` are not always the
megabyte counts times 1048576, because the product is taken in `uint` and only
then widened to `int64`.  On a build with a 32-bit `uint` the 40960 megabytes
of disk of scenario S1 reach the driver as 0 bytes, although the exact product
42949672960 is far below 2 ^ 63 and the memory size of the same call is exact.
With a 64-bit `uint`, 17592186044416 megabytes of memory reach the driver as 0
bytes. -/
theorem C6_size_wraps_before_widening :
    (driverCalls (Run windows386 stepS1 [] bagS1).events).head? =
      some (.CreateVirtualMachine "build-01" "C:/packer/tmp" "" "C:/packer/vhd" 2147483648
        0 "external" 2) ∧
    (stepS1.DiskSize : Int) * 1048576 = 42949672960 ∧
    (42949672960 : Int) < 2 ^ 63 ∧
    (stepS1.RamSize : Int) * 1048576 = 2147483648 ∧
    (driverCalls (Run windowsAmd64 stepHuge [] bagS1).events).head? =
      some (.CreateVirtualMachine "build-03" "C:/packer/tmp" "" "C:/packer/vhd" 0
        42949672960 "external" 2) ∧
    (stepHuge.RamSize : Int) * 1048576 ≠ 0 := by
  refine ⟨by decide, by decide, by decide, by decide, by decide, by decide⟩

/-- Where the conversion of `Run` does not wrap: a size whose product with
1048576 is below `2 ^ uintBits` and below 2 ^ 63 reaches `CreateVirtualMachine`
as that product. -/
theorem sizes_exact_when_no_wrap (P : Platform) (s : Step) (hist : List DriverCall)
    (state : StateBag) (n path hp vhd : String) (ram disk : Int) (sw : String) (g : Nat)
    (hc : DriverCall.CreateVirtualMachine n path hp vhd ram disk sw g ∈
      driverCalls (Run P s hist state).events) :
    (s.RamSize * 1048576 < 2 ^ P.uintBits → s.RamSize * 1048576 < 2 ^ 63 →
      ram = (s.RamSize : Int) * 1048576) ∧
    (s.DiskSize * 1048576 < 2 ^ P.uintBits → s.DiskSize * 1048576 < 2 ^ 63 →
      disk = (s.DiskSize : Int) * 1048576) := by
  obtain ⟨path', vhd', _, _, heq⟩ := create_call_args P s hist state _ hc rfl
  injection heq with _ _ _ _ hram hdisk
  subst hram hdisk
  exact ⟨mb_to_bytes_exact P s.RamSize, mb_to_bytes_exact P s.DiskSize⟩

/-- Scenario S1 with a 64-bit `uint`: 2048 megabytes are 2147483648 bytes,
40960 megabytes are 42949672960 bytes. -/
theorem sizes_exact_scenario_S1 :
    DriverCall.CreateVirtualMachine "build-01" "C:/packer/tmp" "" "C:/packer/vhd" 2147483648
        42949672960 "external" 2 ∈ driverCalls (Run windowsAmd64 stepS1 [] bagS1).events ∧
    (2147483648 : Int) = ((2048 : Nat) : Int) * 1048576 ∧
    (42949672960 : Int) = ((40960 : Nat) : Int) * 1048576 :=
  have h := sizes_exact_when_no_wrap windowsAmd64 stepS1 [] bagS1 "build-01" "C:/packer/tmp" ""
    "C:/packer/vhd" 2147483648 42949672960 "external" 2 (by decide)
  ⟨by decide, h.1 (by decide) (by decide), h.2 (by decide) (by decide)⟩

/-- C7: `Cleanup` with an empty VMName produces no event at all (no driver call,
no UI message); in every case its driver calls are none or, with VMName not
empty, the single call DeleteVirtualMachine(VMName); and with VMName not empty
and a driver and a UI in the state bag they are exactly that single call. -/
theorem C7_cleanup_delete_iff_named (s : Step) (hist : List DriverCall) (state : StateBag) :
    (s.VMName = "" → (Cleanup s hist state).events = []) ∧
    (driverCalls (Cleanup s hist state).events = [] ∨
      (s.VMName ≠ "" ∧
        driverCalls (Cleanup s hist state).events = [.DeleteVirtualMachine s.VMName])) ∧
    (∀ driver, state "driver" = some (.driver driver) → state "ui" = some .ui →
      s.VMName ≠ "" →
      driverCalls (Cleanup s hist state).events = [.DeleteVirtualMachine s.VMName]) := by
  refine ⟨?_, ?_, ?_⟩
  · intro h
    simp [Cleanup, h]
  · unfold Cleanup
    dsimp only
    (repeat' split) <;> simp_all [driverCalls]
  · intro driver hd hu hn
    unfold Cleanup
    simp only [hd, hu, if_neg hn]
    split <;> simp [driverCalls]

/-- Cleanup of scenario S1 deletes "build-01"; with the name emptied it does
nothing. -/
theorem C7_witness :
    driverCalls (Cleanup stepS1 [] bagS1).events = [.DeleteVirtualMachine "build-01"] ∧
    (Cleanup { stepS1 with VMName := "" } [] bagS1).events = [] :=
  ⟨(C7_cleanup_delete_iff_named stepS1 [] bagS1).2.2 okDriver rfl rfl (by decide),
    (C7_cleanup_delete_iff_named { stepS1 with VMName := "" } [] bagS1).1 rfl⟩

/-- C8: when VMName is not empty and DeleteVirtualMachine returns an error with
text `e`, `Cleanup` returns normally, the UI error channel receives exactly
the one message "Error deleting virtual machine: " followed by `e`, nothing is
written to the state bag and the state bag is unchanged. -/
theorem C8_cleanup_swallows_delete_error (s : Step) (hist : List DriverCall)
    (state : StateBag) (e : String) (hname : s.VMName ≠ "")
    (h : (DriverCall.DeleteVirtualMachine s.VMName, some e) ∈
      driverResults (Cleanup s hist state).events) :
    (Cleanup s hist state).panicked = false ∧
    uiErrors (Cleanup s hist state).events = ["Error deleting virtual machine: " ++ e] ∧
    putKeys (Cleanup s hist state).events = [] ∧
    (Cleanup s hist state).state = state := by
  revert h
  unfold Cleanup
  dsimp only
  (repeat' split) <;> simp_all [driverResults, uiErrors, putKeys]

/-- Scenario S6: the deletion fails with "access denied". -/
theorem C8_witness :
    stepS1.VMName ≠ "" ∧
    (DriverCall.DeleteVirtualMachine "build-01", some "access denied") ∈
      driverResults (Cleanup stepS1 [] (bagWith deleteFailsDriver none)).events ∧
    (Cleanup stepS1 [] (bagWith deleteFailsDriver none)).panicked = false ∧
    uiErrors (Cleanup stepS1 [] (bagWith deleteFailsDriver none)).events =
      ["Error deleting virtual machine: " ++ "access denied"] ∧
    putKeys (Cleanup stepS1 [] (bagWith deleteFailsDriver none)).events = [] ∧
    (Cleanup stepS1 [] (bagWith deleteFailsDriver none)).state = bagWith deleteFailsDriver none :=
  ⟨by decide, by decide,
    C8_cleanup_swallows_delete_error stepS1 [] (bagWith deleteFailsDriver none) "access denied"
      (by decide) (by decide)⟩

/-- C9: on a state bag without `vmName`, after `Run` the key `vmName` is present
iff `Run` returned Continue, and a value present under it is the step's
VMName. -/
theorem C9_vmName_published_iff_continue (P : Platform) (s : Step) (hist : List DriverCall)
    (state : StateBag) (habsent : state "vmName" = none) :
    ((∃ v, (Run P s hist state).state "vmName" = some v) ↔
      (Run P s hist state).outcome = .returned .ActionContinue) ∧
    (∀ v, (Run P s hist state).state "vmName" = some v → v = .string s.VMName) := by
  rcases Run_shape P s hist state with ⟨driver, path, vhd, hr⟩ | ⟨ho, hs, _⟩
  · rw [Run_of_required hr]
    unfold createVM configCpuCount configDynamicMemory configMacSpoofing configSecureBoot
      configVirtualizationExtensions haltWith publish
    dsimp only
    (repeat' split) <;> simp [StateBag.Put, habsent]
  · simp [ho, hs, habsent]

/-- Scenario S1 starts without `vmName` in the state bag. -/
theorem C9_witness :
    bagS1 "vmName" = none ∧
    (((∃ v, (Run windowsAmd64 stepS1 [] bagS1).state "vmName" = some v) ↔
      (Run windowsAmd64 stepS1 [] bagS1).outcome = .returned .ActionContinue) ∧
    (∀ v, (Run windowsAmd64 stepS1 [] bagS1).state "vmName" = some v →
      v = .string "build-01")) :=
  ⟨rfl, C9_vmName_published_iff_continue windowsAmd64 stepS1 [] bagS1 rfl⟩

/-- C10: when a driver primitive invoked by `Run` fails with error text `e`, the
value stored under `error` is an error whose message is the fixed text of that
primitive followed by `e`, and the UI error channel receives exactly that one
message. -/
theorem C10_error_message (P : Platform) (s : Step) (hist : List DriverCall)
    (state : StateBag) (c : DriverCall) (e : String)
    (h : (c, some e) ∈ driverResults (Run P s hist state).events) :
    (Run P s hist state).state "error" = some (.error (claimedErrorTag c ++ e)) ∧
    uiErrors (Run P s hist state).events = [claimedErrorTag c ++ e] := by
  rcases Run_shape P s hist state with ⟨driver, path, vhd, hr⟩ | ⟨_, _, _, hp, _⟩
  · rw [Run_of_required hr] at h ⊢
    revert h
    unfold createVM configCpuCount configDynamicMemory configMacSpoofing configSecureBoot
      configVirtualizationExtensions haltWith publish
    dsimp only
    (repeat' split) <;> simp_all [driverResults, uiErrors, claimedErrorTag, StateBag.Put]
  · rw [hp] at h; cases h

/-- Scenario S4: "host busy" while setting the CPU count. -/
theorem C10_witness :
    (DriverCall.SetVirtualMachineCpuCount "build-01" 2, some "host busy") ∈
      driverResults (Run windowsAmd64 stepS1 [] (bagWith cpuBusyDriver none)).events ∧
    (Run windowsAmd64 stepS1 [] (bagWith cpuBusyDriver none)).state "error" =
      some (.error "Error setting virtual machine cpu count: host busy") ∧
    uiErrors (Run windowsAmd64 stepS1 [] (bagWith cpuBusyDriver none)).events =
      ["Error setting virtual machine cpu count: host busy"] :=
  ⟨by decide,
    C10_error_message windowsAmd64 stepS1 [] (bagWith cpuBusyDriver none)
      (.SetVirtualMachineCpuCount "build-01" 2) "host busy" (by decide)⟩

/-- The driver cannot create the virtual machine of scenario S1 and `Run` halts
on that error, so the step is still pending; yet `Cleanup` announces itself
and calls DeleteVirtualMachine("build-01").  It does the same when `Run` was
never invoked. -/
theorem C11_counterexample :
    driverResults (Run windowsAmd64 stepS1 [] (bagWith createFailsDriver none)).events =
      [(.CreateVirtualMachine "build-01" "C:/packer/tmp" "" "C:/packer/vhd" 2147483648
        42949672960 "external" 2, some "switch not found")] ∧
    (Run windowsAmd64 stepS1 [] (bagWith createFailsDriver none)).outcome =
      .returned .ActionHalt ∧
    driverCalls (Cleanup stepS1
      (driverCalls (Run windowsAmd64 stepS1 [] (bagWith createFailsDriver none)).events)
      (Run windowsAmd64 stepS1 [] (bagWith createFailsDriver none)).state).events =
      [.DeleteVirtualMachine "build-01"] ∧
    uiSays (Cleanup stepS1
      (driverCalls (Run windowsAmd64 stepS1 [] (bagWith createFailsDriver none)).events)
      (Run windowsAmd64 stepS1 [] (bagWith createFailsDriver none)).state).events =
      ["Unregistering and deleting virtual machine..."] ∧
    driverCalls (Cleanup stepS1 [] bagS1).events = [.DeleteVirtualMachine "build-01"] := by
  refine ⟨by decide, by decide, by decide, by decide, by decide⟩

/-- C11, amended: what makes `Cleanup` a no-op is an empty VMName, not a pending
step.  With VMName empty `Cleanup` produces no event (no driver call, no UI
message), whether `Run` was invoked before or not.  With VMName not empty and
a driver and a UI in the state bag, `Cleanup` announces itself and calls
DeleteVirtualMachine(VMName) exactly once, both when `Run` was never invoked
and after any run of `Run`, whatever its outcome. -/
theorem C11_cleanup_gate_is_the_name (P : Platform) (s : Step) (hist : List DriverCall)
    (state : StateBag) :
    (s.VMName = "" →
      (Cleanup s hist state).events = [] ∧
      (Cleanup s (hist ++ driverCalls (Run P s hist state).events)
        (Run P s hist state).state).events = []) ∧
    (∀ driver, state "driver" = some (.driver driver) → state "ui" = some .ui →
      s.VMName ≠ "" →
      (driverCalls (Cleanup s hist state).events = [.DeleteVirtualMachine s.VMName] ∧
        uiSays (Cleanup s hist state).events =
          ["Unregistering and deleting virtual machine..."]) ∧
      (driverCalls (Cleanup s (hist ++ driverCalls (Run P s hist state).events)
          (Run P s hist state).state).events = [.DeleteVirtualMachine s.VMName] ∧
        uiSays (Cleanup s (hist ++ driverCalls (Run P s hist state).events)
          (Run P s hist state).state).events =
          ["Unregistering and deleting virtual machine..."])) := by
  constructor
  · intro h
    simp [Cleanup, h]
  · intro driver hd hu hn
    refine ⟨Cleanup_of_named s hist state driver hd hu hn, ?_⟩
    apply Cleanup_of_named s _ _ driver _ _ hn
    · rw [Run_frame P s hist state "driver" (by decide) (by decide)]; exact hd
    · rw [Run_frame P s hist state "ui" (by decide) (by decide)]; exact hu

/-- Scenario S4: after the run that halted on the CPU count, `Cleanup` deletes
"build-01"; a step without a name is left alone. -/
theorem C11_witness :
    (driverCalls (Cleanup stepS1
      (driverCalls (Run windowsAmd64 stepS1 [] (bagWith cpuBusyDriver none)).events)
      (Run windowsAmd64 stepS1 [] (bagWith cpuBusyDriver none)).state).events =
      [.DeleteVirtualMachine "build-01"]) ∧
    (Cleanup { stepS1 with VMName := "" } [] bagS1).events = [] :=
  ⟨((C11_cleanup_gate_is_the_name windowsAmd64 stepS1 [] (bagWith cpuBusyDriver none)).2
      cpuBusyDriver rfl rfl (by decide)).2.1,
    ((C11_cleanup_gate_is_the_name windowsAmd64 { stepS1 with VMName := "" } [] bagS1).1 rfl).1⟩

/-- C12: the UI messages of a run of `Run` that returns Continue are the one
announcement "Creating virtual machine..." and nothing else; those of a run
that returns Halt are that announcement followed by exactly one error message.
In both cases the announcement is the first event of the run, before any
driver call.  A run that panics while loading its parameters makes no driver
call and shows nothing or the announcement only; with the required keys in the
state bag `Run` does not panic. -/
theorem C12_ui_message_sequence (P : Platform) (s : Step) (hist : List DriverCall)
    (state : StateBag) :
    ((Run P s hist state).outcome = .returned .ActionContinue →
      uiMessages (Run P s hist state).events = [.say "Creating virtual machine..."]) ∧
    ((Run P s hist state).outcome = .returned .ActionHalt →
      ∃ m, uiMessages (Run P s hist state).events =
        [.say "Creating virtual machine...", .error m]) ∧
    ((Run P s hist state).outcome ≠ .panicked →
      (Run P s hist state).events.head? = some (.say "Creating virtual machine...")) ∧
    ((Run P s hist state).outcome = .panicked →
      driverCalls (Run P s hist state).events = [] ∧
      (uiMessages (Run P s hist state).events = [] ∨
        uiMessages (Run P s hist state).events = [.say "Creating virtual machine..."])) ∧
    (∀ driver path vhd, RequiredKeys state driver path vhd →
      (Run P s hist state).outcome ≠ .panicked) := by
  refine ⟨?_, ?_, ?_, Run_panic_quiet P s hist state,
    fun _ _ _ hr => Run_returns_of_required hr s hist⟩
  all_goals
    rcases Run_shape P s hist state with ⟨driver, path, vhd, hr⟩ | ⟨ho, _⟩
    · rw [Run_of_required hr]
      unfold createVM configCpuCount configDynamicMemory configMacSpoofing configSecureBoot
        configVirtualizationExtensions haltWith publish
      dsimp only
      (repeat' split) <;> simp [uiMessages]
    · simp [ho]

/-- Scenarios S1 and S4: one announcement on success, one announcement and one
error message when the CPU count cannot be set. -/
theorem C12_witness :
    uiMessages (Run windowsAmd64 stepS1 [] bagS1).events =
      [.say "Creating virtual machine..."] ∧
    ∃ m, uiMessages (Run windowsAmd64 stepS1 [] (bagWith cpuBusyDriver none)).events =
      [.say "Creating virtual machine...", .error m] :=
  ⟨(C12_ui_message_sequence windowsAmd64 stepS1 [] bagS1).1 (by decide),
    (C12_ui_message_sequence windowsAmd64 stepS1 [] (bagWith cpuBusyDriver none)).2.1
      (by decide)⟩

/-- C13: for a step of Generation 1, changing EnableSecureBoot to any value and
leaving everything else as it is (state bag, driver, the calls the driver has
seen) changes nothing in what `Run` does: the events (driver calls with their
results, UI messages, log lines, writes), the resulting state bag and the
returned action are the same. -/
theorem C13_secure_boot_ignored_on_generation_1 (P : Platform) (s : Step) (b : Bool)
    (hist : List DriverCall) (state : StateBag) (hgen : s.Generation = 1) :
    Run P { s with EnableSecureBoot := b } hist state = Run P s hist state := by
  have h2 : ¬ s.Generation = 2 := by omega
  unfold Run createVM configCpuCount configDynamicMemory configMacSpoofing configSecureBoot
    configVirtualizationExtensions publish ramBytes diskBytes
  simp only [h2, if_false]

/-- Scenario S3: Generation 1 with secure boot requested runs as with secure
boot not requested, and makes no secure-boot call. -/
theorem C13_witness :
    Run windowsAmd64 { stepNested with EnableSecureBoot := false } [] bagS1 =
      Run windowsAmd64 stepNested [] bagS1 ∧
    driverCalls (Run windowsAmd64 stepNested [] bagS1).events =
      [.CreateVirtualMachine "build-02" "C:/packer/tmp" "" "C:/packer/vhd" 4294967296
          21474836480 "" 1,
        .SetVirtualMachineCpuCount "build-02" 4,
        .SetVirtualMachineDynamicMemory "build-02" true,
        .SetVirtualMachineMacSpoofing "build-02" true,
        .SetVirtualMachineVirtualizationExtensions "build-02" true] :=
  ⟨C13_secure_boot_ignored_on_generation_1 windowsAmd64 stepNested false [] bagS1 rfl,
    by decide⟩

/-- C14: `Run` leaves the step as it found it.  When it returns Continue its
only write to the state bag is under `vmName` and every other key holds what
it held before; when it returns Halt its only write is under `error` and every
other key holds what it held before; when it panics it has written nothing. -/
theorem C14_run_frame (P : Platform) (s : Step) (hist : List DriverCall)
    (state : StateBag) :
    receiverAfterRun P s hist state = s ∧
    ((Run P s hist state).outcome = .returned .ActionContinue →
      putKeys (Run P s hist state).events = ["vmName"] ∧
      ∀ k, k ≠ "vmName" → (Run P s hist state).state k = state k) ∧
    ((Run P s hist state).outcome = .returned .ActionHalt →
      putKeys (Run P s hist state).events = ["error"] ∧
      ∀ k, k ≠ "error" → (Run P s hist state).state k = state k) ∧
    ((Run P s hist state).outcome = .panicked →
      putKeys (Run P s hist state).events = [] ∧ (Run P s hist state).state = state) := by
  refine ⟨rfl, ?_⟩
  rcases Run_shape P s hist state with ⟨driver, path, vhd, hr⟩ | ⟨ho, hs, _, _, _, hk⟩
  · rw [Run_of_required hr]
    unfold createVM configCpuCount configDynamicMemory configMacSpoofing configSecureBoot
      configVirtualizationExtensions haltWith publish
    dsimp only
    (repeat' split) <;> simp [putKeys, StateBag.Put] <;> intro k hk <;> simp [hk]
  · simp [ho, hs, hk]

/-- Scenarios S1 and S4: the successful run writes `vmName` only, the halted
run writes `error` only. -/
theorem C14_witness :
    putKeys (Run windowsAmd64 stepS1 [] bagS1).events = ["vmName"] ∧
    putKeys (Run windowsAmd64 stepS1 [] (bagWith cpuBusyDriver none)).events = ["error"] :=
  ⟨((C14_run_frame windowsAmd64 stepS1 [] bagS1).2.1 (by decide)).1,
    ((C14_run_frame windowsAmd64 stepS1 [] (bagWith cpuBusyDriver none)).2.2.1
      (by decide)).1⟩

/-- C15: changing the field HarddrivePath of the step to any value and leaving
everything else as it is changes nothing in what `Run` and `Cleanup` do
(events, resulting state bag, outcome); the hard drive path of every
`CreateVirtualMachine` call is the one resolved from the state bag. -/
theorem C15_harddrive_field_unused (P : Platform) (s : Step) (hp : String)
    (hist : List DriverCall) (state : StateBag) :
    Run P { s with HarddrivePath := hp } hist state = Run P s hist state ∧
    Cleanup { s with HarddrivePath := hp } hist state = Cleanup s hist state ∧
    (∀ n path h vhd ram disk sw g,
      DriverCall.CreateVirtualMachine n path h vhd ram disk sw g ∈
          driverCalls (Run P { s with HarddrivePath := hp } hist state).events →
        h = (resolveHarddrivePath P state).getD "") := by
  refine ⟨rfl, rfl, ?_⟩
  intro n path h vhd ram disk sw g hc
  obtain ⟨_, _, _, _, heq⟩ := create_call_args P _ hist state _ hc rfl
  injection heq

/-- The field HarddrivePath set to a VHDX of its own: the virtual machine of
scenario S1 is still created without a hard drive. -/
theorem C15_witness :
    ∀ n path h vhd ram disk sw g,
      DriverCall.CreateVirtualMachine n path h vhd ram disk sw g ∈
          driverCalls (Run windowsAmd64 { stepS1 with HarddrivePath := "D:/other.vhdx" } []
            bagS1).events →
        h = "" :=
  fun n path h vhd ram disk sw g hc =>
    ((C15_harddrive_field_unused windowsAmd64 stepS1 "D:/other.vhdx" [] bagS1).2.2
      n path h vhd ram disk sw g hc).trans (by decide)

/-- C16: with the required keys in the state bag, the driver calls of `Run` are
a non-empty initial part of the full gated sequence of the configuration; the
first of them is CreateVirtualMachine; every call but the last returned no
error; every call is addressed to the step's VMName; and `Run` returns Continue
iff the calls are the full sequence and the last of them returned no error. -/
theorem C16_calls_initial_segment (P : Platform) (s : Step) (hist : List DriverCall)
    (state : StateBag) (driver : Driver) (path vhd : String)
    (hr : RequiredKeys state driver path vhd) :
    (driverCalls (Run P s hist state).events <+:
        claimedSequence P s path ((resolveHarddrivePath P state).getD "") vhd ∧
      driverCalls (Run P s hist state).events ≠ []) ∧
    (driverCalls (Run P s hist state).events).head? =
      some (.CreateVirtualMachine s.VMName path ((resolveHarddrivePath P state).getD "") vhd
        (ramBytes P s) (diskBytes P s) s.SwitchName s.Generation) ∧
    (∀ x ∈ (driverResults (Run P s hist state).events).dropLast, x.2 = none) ∧
    (∀ c ∈ driverCalls (Run P s hist state).events, c.target = s.VMName) ∧
    ((Run P s hist state).outcome = .returned .ActionContinue ↔
      driverCalls (Run P s hist state).events =
          claimedSequence P s path ((resolveHarddrivePath P state).getD "") vhd ∧
        ∃ c, (driverResults (Run P s hist state).events).getLast? = some (c, none)) := by
  refine ⟨⟨?_, (calls_eq_take hr s hist).2⟩, first_call_of_required hr s hist, ?_, ?_, ?_⟩
  · rw [(calls_eq_take (P := P) hr s hist).1]
    exact List.take_prefix _ _
  · rw [Run_of_required hr]
    unfold createVM configCpuCount configDynamicMemory configMacSpoofing configSecureBoot
      configVirtualizationExtensions haltWith publish
    dsimp only
    (repeat' split) <;> simp_all [driverResults]
  · rw [Run_of_required hr]
    unfold createVM configCpuCount configDynamicMemory configMacSpoofing configSecureBoot
      configVirtualizationExtensions haltWith publish
    dsimp only
    (repeat' split) <;> simp_all [driverCalls, DriverCall.target]
  · rw [Run_of_required hr]
    unfold createVM configCpuCount configDynamicMemory configMacSpoofing configSecureBoot
      configVirtualizationExtensions haltWith publish claimedSequence
    dsimp only
    (repeat' split) <;> simp_all [driverCalls, driverResults]

/-- Scenario S4: the calls of the halted run are the first two of the full
sequence. -/
theorem C16_witness :
    (driverCalls (Run windowsAmd64 stepS1 [] (bagWith cpuBusyDriver none)).events <+:
        claimedSequence windowsAmd64 stepS1 "C:/packer/tmp" "" "C:/packer/vhd" ∧
      driverCalls (Run windowsAmd64 stepS1 [] (bagWith cpuBusyDriver none)).events ≠ []) ∧
    driverCalls (Run windowsAmd64 stepS1 [] (bagWith cpuBusyDriver none)).events =
      [.CreateVirtualMachine "build-01" "C:/packer/tmp" "" "C:/packer/vhd" 2147483648
        42949672960 "external" 2, .SetVirtualMachineCpuCount "build-01" 2] :=
  ⟨(C16_calls_initial_segment windowsAmd64 stepS1 [] (bagWith cpuBusyDriver none) cpuBusyDriver
      "C:/packer/tmp" "C:/packer/vhd" ⟨rfl, rfl, rfl, rfl, Or.inl rfl⟩).1, by decide⟩

end StepCreateVM
